import Mathlib

/-!
Verification of the voice conversation core of the Mimir backend
(`backend/voice/state_machine.py` and `backend/voice/session.py`).

The Python classes are shallowly embedded as pure Lean functions over
explicit state records:

* `VoiceStateMachine.transition_to` mutates `(state, previous_state,
  state_changed_at)` under a lock and dispatches the registered callbacks
  with `(old_state, new_state, metadata)`; here it returns the updated
  record together with the list of callback dispatches it performed
  (`fires`), so "fires no callback" is `fires = []`.
* `VoiceSession` registers three state-enter callbacks that update the
  metrics record; `apply_state_callbacks` is their combined effect.
* The WebSocket transport is an oracle `ws : Nat → Bool` giving the
  outcome of the n-th send attempt; `_send_to_client` always attempts the
  send (appending the tagged message to `outbox`) and flips `is_active`
  to `false` when the attempt fails, exactly as the Python `try/except`
  does.
* `synthesize_and_stream` iterates the provider's chunk list; the
  suspension point before each chunk's state check is where a concurrent
  task (the STT event loop) may act on the state machine, modelled by an
  interference function `env : Nat → VoiceStateMachine →
  VoiceStateMachine` applied before each check.  The returned
  `TTSOutcome` additionally records the number of `cancel_stream` calls,
  the number of chunks forwarded, and the state observed at each chunk
  boundary (ghost instrumentation used only by the specifications).
* `datetime.now()` values are abstracted as `Nat` timestamps passed in;
  `confidence` floats are carried through untouched by the code, so they
  are represented by an abstract `Nat` code.
-/

/-- The five conversation states of `ConversationState` (state_machine.py). -/
inductive ConversationState where
  | IDLE
  | USER_SPEAKING
  | PROCESSING
  | ASSISTANT_SPEAKING
  | ERROR
  deriving DecidableEq, Repr

/-- Transition metadata dictionaries that the voice core actually passes:
the empty dict, the barge-in dict, the final-utterance dict, and the
TTS-stream dict. -/
inductive TransitionMetadata where
  | empty
  | barge_in_meta (interrupted_stream_id : Option String)
  | utterance_meta (utterance : String) (confidence : Nat)
  | stream_meta (stream_id : String)
  deriving DecidableEq, Repr

/-- One dispatch of the registered callbacks: `_execute_callbacks` invokes
every registered callback with `(session_id, old_state, new_state,
metadata)`. -/
structure CallbackFire where
  old_state : ConversationState
  new_state : ConversationState
  metadata : TransitionMetadata
  deriving DecidableEq, Repr

/-- The mutable fields of `VoiceStateMachine`. -/
structure VoiceStateMachine where
  session_id : String
  state : ConversationState
  previous_state : ConversationState
  state_changed_at : Nat
  current_tts_stream_id : Option String
  deriving DecidableEq, Repr

/-- The `valid_transitions` table of `_is_valid_transition`. -/
def valid_transitions : ConversationState → List ConversationState
  | ConversationState.IDLE =>
      [ConversationState.USER_SPEAKING, ConversationState.PROCESSING,
       ConversationState.ERROR]
  | ConversationState.USER_SPEAKING =>
      [ConversationState.PROCESSING, ConversationState.IDLE,
       ConversationState.ERROR]
  | ConversationState.PROCESSING =>
      [ConversationState.ASSISTANT_SPEAKING, ConversationState.IDLE,
       ConversationState.ERROR]
  | ConversationState.ASSISTANT_SPEAKING =>
      [ConversationState.IDLE, ConversationState.USER_SPEAKING,
       ConversationState.ERROR]
  | ConversationState.ERROR =>
      [ConversationState.IDLE]

/-- `VoiceStateMachine._is_valid_transition`: same-state transitions are
always allowed, otherwise membership in the table decides. -/
def is_valid_transition (from_state to_state : ConversationState) : Bool :=
  if from_state = to_state then true
  else decide (to_state ∈ valid_transitions from_state)

/-- Result of one `transition_to` call: the returned boolean, the machine
afterwards, and the callback dispatches performed. -/
structure TransitionResult where
  ok : Bool
  machine : VoiceStateMachine
  fires : List CallbackFire
  deriving DecidableEq, Repr

/-- `VoiceStateMachine.transition_to`: under the lock, an invalid target
returns `False` with no mutation and no callbacks; a valid one records
the old state as `previous_state`, installs the new state and timestamp,
and dispatches the callbacks with `(old_state, new_state, metadata)`. -/
def transition_to (sm : VoiceStateMachine) (new_state : ConversationState)
    (metadata : TransitionMetadata) (now : Nat) : TransitionResult :=
  if is_valid_transition sm.state new_state then
    { ok := true
      machine := { sm with
        previous_state := sm.state
        state := new_state
        state_changed_at := now }
      fires := [{ old_state := sm.state, new_state := new_state,
                  metadata := metadata }] }
  else
    { ok := false, machine := sm, fires := [] }

/-- `VoiceStateMachine.handle_barge_in`: a no-op returning `False` unless
the state is `ASSISTANT_SPEAKING`, in which case it is the transition to
`USER_SPEAKING` carrying the barge-in metadata. -/
def handle_barge_in (sm : VoiceStateMachine) (now : Nat) : TransitionResult :=
  if sm.state = ConversationState.ASSISTANT_SPEAKING then
    transition_to sm ConversationState.USER_SPEAKING
      (TransitionMetadata.barge_in_meta sm.current_tts_stream_id) now
  else
    { ok := false, machine := sm, fires := [] }

/-- `VoiceStateMachine.set_tts_stream_id`. -/
def set_tts_stream_id (sm : VoiceStateMachine) (stream_id : Option String) :
    VoiceStateMachine :=
  { sm with current_tts_stream_id := stream_id }

/-- `VoiceStateMachine.get_tts_stream_id`. -/
def get_tts_stream_id (sm : VoiceStateMachine) : Option String :=
  sm.current_tts_stream_id

/-- `VoiceStateMachine.get_state`. -/
def get_state (sm : VoiceStateMachine) : ConversationState :=
  sm.state

/-- The `STTEvent` enumeration (stt_provider.py). -/
inductive STTEvent where
  | PARTIAL_TRANSCRIPT
  | FINAL_TRANSCRIPT
  | SPEECH_STARTED
  | SPEECH_ENDED
  | ERROR
  deriving DecidableEq, Repr

/-- `STTEventData` (stt_provider.py); `confidence` is an abstract code for
the float, which the voice core only carries through. -/
structure STTEventData where
  event_type : STTEvent
  transcript : String
  confidence : Nat
  is_final : Bool
  error : Option String
  deriving DecidableEq, Repr

/-- The `metrics` dictionary of `VoiceSession`. -/
structure SessionMetrics where
  user_turns : Nat
  assistant_turns : Nat
  barge_ins : Nat
  total_user_speech_ms : Nat
  total_assistant_speech_ms : Nat
  deriving DecidableEq, Repr

/-- Payloads of the JSON messages `VoiceSession` sends to the client,
before `_send_to_client` tags them with `session_id` and `state`; audio
bytes are lists of byte values. -/
inductive MessageBody where
  | barge_in_msg (timestamp : Nat)
  | partial_transcript_msg (transcript : String) (confidence : Nat)
  | final_transcript_msg (transcript : String) (confidence : Nat)
  | audio_chunk_msg (audio : List Nat) (stream_id : String)
  | stt_error_msg (error : Option String)
  | tts_error_msg (error : String)
  deriving DecidableEq, Repr

/-- A message as attempted over the WebSocket: the body plus the
`session_id` and `state` fields `_send_to_client` adds. -/
structure SentMessage where
  body : MessageBody
  session_id : String
  state : ConversationState
  deriving DecidableEq, Repr

/-- The mutable fields of `VoiceSession` that the voice core touches.
`outbox` lists the send attempts in order, `send_attempts` indexes the
transport oracle, and `fires` is the ghost log of callback dispatches of
the session's state machine. -/
structure VoiceSession where
  session_id : String
  state_machine : VoiceStateMachine
  current_utterance : String
  metrics : SessionMetrics
  is_active : Bool
  outbox : List SentMessage
  send_attempts : Nat
  fires : List CallbackFire
  deriving DecidableEq, Repr

/-- Combined effect on the metrics of the three state-enter callbacks that
`_setup_state_callbacks` registers (`on_user_speaking`, `on_processing`,
`on_assistant_speaking`). -/
def apply_state_callbacks (m : SessionMetrics) (f : CallbackFire) :
    SessionMetrics :=
  match f.new_state with
  | ConversationState.USER_SPEAKING =>
      if f.old_state = ConversationState.ASSISTANT_SPEAKING then
        { m with barge_ins := m.barge_ins + 1 }
      else m
  | ConversationState.PROCESSING =>
      if f.old_state = ConversationState.USER_SPEAKING then
        { m with user_turns := m.user_turns + 1 }
      else m
  | ConversationState.ASSISTANT_SPEAKING =>
      if f.old_state = ConversationState.PROCESSING then
        { m with assistant_turns := m.assistant_turns + 1 }
      else m
  | _ => m

/-- A `transition_to` call on the session's state machine, with the
session's registered callbacks applied to the metrics. -/
def session_transition (s : VoiceSession) (new_state : ConversationState)
    (metadata : TransitionMetadata) (now : Nat) : Bool × VoiceSession :=
  let r := transition_to s.state_machine new_state metadata now
  (r.ok,
   { s with
     state_machine := r.machine
     metrics := r.fires.foldl apply_state_callbacks s.metrics
     fires := s.fires ++ r.fires })

/-- A `handle_barge_in` call on the session's state machine, with the
session's registered callbacks applied to the metrics. -/
def session_handle_barge_in (s : VoiceSession) (now : Nat) :
    Bool × VoiceSession :=
  let r := handle_barge_in s.state_machine now
  (r.ok,
   { s with
     state_machine := r.machine
     metrics := r.fires.foldl apply_state_callbacks s.metrics
     fires := s.fires ++ r.fires })

/-- `VoiceSession._send_to_client`: tags the message with the session id
and current state and attempts the WebSocket send unconditionally; a
failing attempt (the `except` branch) sets `_is_active = False`. -/
def send_to_client (ws : Nat → Bool) (s : VoiceSession) (body : MessageBody) :
    VoiceSession :=
  let msg : SentMessage :=
    { body := body, session_id := s.session_id,
      state := s.state_machine.state }
  { s with
    outbox := s.outbox ++ [msg]
    send_attempts := s.send_attempts + 1
    is_active := if ws s.send_attempts then s.is_active else false }

/-- `VoiceSession._process_stt_event`. -/
def process_stt_event (ws : Nat → Bool) (s : VoiceSession)
    (event : STTEventData) (now : Nat) : VoiceSession :=
  match event.event_type with
  | STTEvent.SPEECH_STARTED =>
      if get_state s.state_machine = ConversationState.ASSISTANT_SPEAKING then
        let s1 := (session_handle_barge_in s now).2
        send_to_client ws s1 (MessageBody.barge_in_msg now)
      else if get_state s.state_machine = ConversationState.IDLE then
        (session_transition s ConversationState.USER_SPEAKING
          TransitionMetadata.empty now).2
      else s
  | STTEvent.PARTIAL_TRANSCRIPT =>
      send_to_client ws s
        (MessageBody.partial_transcript_msg event.transcript event.confidence)
  | STTEvent.FINAL_TRANSCRIPT =>
      if get_state s.state_machine ≠ ConversationState.USER_SPEAKING then s
      else
        let s1 := { s with current_utterance := event.transcript }
        let s2 := send_to_client ws s1
          (MessageBody.final_transcript_msg event.transcript event.confidence)
        (session_transition s2 ConversationState.PROCESSING
          (TransitionMetadata.utterance_meta event.transcript
            event.confidence) now).2
  | STTEvent.SPEECH_ENDED => s
  | STTEvent.ERROR =>
      send_to_client ws s (MessageBody.stt_error_msg event.error)

/-- `VoiceSession.finish_speaking`: only in `ASSISTANT_SPEAKING` does it
transition to `IDLE` and clear the stream id. -/
def finish_speaking (s : VoiceSession) (now : Nat) : VoiceSession :=
  if get_state s.state_machine = ConversationState.ASSISTANT_SPEAKING then
    let s1 := (session_transition s ConversationState.IDLE
      TransitionMetadata.empty now).2
    { s1 with state_machine := set_tts_stream_id s1.state_machine none }
  else s

/-- Outcome of one `synthesize_and_stream` invocation: the session
afterwards, the number of `cancel_stream` calls made on the TTS provider,
and two ghost observations — the number of chunks forwarded and the state
observed at each chunk boundary. -/
structure TTSOutcome where
  session : VoiceSession
  cancels : Nat
  delivered : Nat
  observed : List ConversationState
  deriving DecidableEq, Repr

/-- The stop check of the streaming loop: `current_state !=
ASSISTANT_SPEAKING` and `not (first_chunk and current_state ==
PROCESSING)`. -/
def tts_should_stop (first_chunk : Bool) (current_state : ConversationState) :
    Bool :=
  decide (current_state ≠ ConversationState.ASSISTANT_SPEAKING) &&
    ! (first_chunk &&
        decide (current_state = ConversationState.PROCESSING))

/-- The `async for` loop of `VoiceSession.synthesize_and_stream`.  For
each chunk: the interference `env` acts at the suspension point, then the
state is read; if it is not `ASSISTANT_SPEAKING` and not the first-chunk
`PROCESSING` allowance, `cancel_stream` is called and the loop breaks;
otherwise the first chunk triggers the transition to
`ASSISTANT_SPEAKING` (carrying the stream id) and the chunk is sent to
the client as an `audio_chunk` message. -/
def tts_stream_loop (env : Nat → VoiceStateMachine → VoiceStateMachine)
    (ws : Nat → Bool) (stream_id : String) (now : Nat) :
    List (List Nat) → Nat → Bool → VoiceSession → TTSOutcome
  | [], _, _, s => { session := s, cancels := 0, delivered := 0, observed := [] }
  | chunk :: rest, i, first_chunk, s =>
      let s1 : VoiceSession := { s with state_machine := env i s.state_machine }
      let current_state := get_state s1.state_machine
      if tts_should_stop first_chunk current_state then
        { session := s1, cancels := 1, delivered := 0,
          observed := [current_state] }
      else
        let s2 := if first_chunk then
            (session_transition s1 ConversationState.ASSISTANT_SPEAKING
              (TransitionMetadata.stream_meta stream_id) now).2
          else s1
        let s3 := send_to_client ws s2
          (MessageBody.audio_chunk_msg chunk stream_id)
        let r := tts_stream_loop env ws stream_id now rest (i + 1) false s3
        { session := r.session, cancels := r.cancels,
          delivered := r.delivered + 1,
          observed := current_state :: r.observed }

/-- `VoiceSession.synthesize_and_stream`: records the fresh stream id on
the state machine, then runs the chunk loop starting with
`first_chunk = True`. -/
def synthesize_and_stream (env : Nat → VoiceStateMachine → VoiceStateMachine)
    (ws : Nat → Bool) (stream_id : String) (chunks : List (List Nat))
    (now : Nat) (s : VoiceSession) : TTSOutcome :=
  let s0 : VoiceSession :=
    { s with
      state_machine := set_tts_stream_id s.state_machine (some stream_id) }
  tts_stream_loop env ws stream_id now chunks 0 true s0

/-- The audio payload a message contributes to a given stream id, if any. -/
def audio_payload_of (stream_id : String) (m : SentMessage) :
    Option (List Nat) :=
  match m.body with
  | MessageBody.audio_chunk_msg audio sid =>
      if sid = stream_id then some audio else none
  | _ => none

/-- The audio payloads carried by the `audio_chunk` messages of a given
stream id, in outbox order. -/
def audio_payloads (stream_id : String) (ms : List SentMessage) :
    List (List Nat) :=
  ms.filterMap (audio_payload_of stream_id)

/-- A concrete state machine used by the witnesses. -/
def mk_machine (st : ConversationState) : VoiceStateMachine :=
  { session_id := "s0", state := st,
    previous_state := ConversationState.IDLE, state_changed_at := 0,
    current_tts_stream_id := some "t0" }

/-- A concrete session used by the witnesses. -/
def mk_session (st : ConversationState) : VoiceSession :=
  { session_id := "s0", state_machine := mk_machine st,
    current_utterance := "", metrics := ⟨0, 0, 0, 0, 0⟩, is_active := true,
    outbox := [], send_attempts := 0, fires := [] }

/-- A concrete final-transcript STT event used by the witnesses. -/
def sample_final_event : STTEventData :=
  { event_type := STTEvent.FINAL_TRANSCRIPT, transcript := "explain gravity",
    confidence := 95, is_final := true, error := none }

/-- A concrete speech-started STT event used by the witnesses. -/
def sample_started_event : STTEventData :=
  { event_type := STTEvent.SPEECH_STARTED, transcript := "",
    confidence := 0, is_final := false, error := none }

/-- A transport oracle on which every send attempt fails. -/
def failing_ws : Nat → Bool := fun _ => false

/-- A concrete inactive session used by the witnesses. -/
def inactive_session : VoiceSession :=
  { mk_session ConversationState.IDLE with is_active := false }

/-- A concrete interference: the STT task performs a barge-in at the
second chunk boundary. -/
def barge_env : Nat → VoiceStateMachine → VoiceStateMachine :=
  fun i sm => if i = 1 then (handle_barge_in sm 0).machine else sm

/-! ## Helper lemmas -/

/-- Membership in the transition table makes the transition valid. -/
theorem is_valid_of_mem (f t : ConversationState)
    (hm : t ∈ valid_transitions f) : is_valid_transition f t = true := by
  by_cases h : f = t
  · simp [is_valid_transition, h]
  · simp [is_valid_transition, h, hm]

/-- `transition_to` never touches the TTS stream id. -/
theorem transition_machine_stream_id (sm : VoiceStateMachine)
    (t : ConversationState) (md : TransitionMetadata) (now : Nat) :
    (transition_to sm t md now).machine.current_tts_stream_id =
      sm.current_tts_stream_id := by
  unfold transition_to
  split <;> rfl

/-- `session_transition` only touches the machine, the metrics and the
fire log. -/
theorem session_transition_frame (s : VoiceSession) (t : ConversationState)
    (md : TransitionMetadata) (now : Nat) :
    ((session_transition s t md now).2).outbox = s.outbox ∧
    ((session_transition s t md now).2).is_active = s.is_active ∧
    ((session_transition s t md now).2).current_utterance =
      s.current_utterance ∧
    ((session_transition s t md now).2).send_attempts = s.send_attempts :=
  ⟨rfl, rfl, rfl, rfl⟩

/-- Explicit form of a valid `session_transition`. -/
theorem session_transition_valid (s : VoiceSession) (t : ConversationState)
    (md : TransitionMetadata) (now : Nat)
    (h : is_valid_transition s.state_machine.state t = true) :
    session_transition s t md now =
      (true,
       { s with
         state_machine := { s.state_machine with
           previous_state := s.state_machine.state
           state := t
           state_changed_at := now }
         metrics := apply_state_callbacks s.metrics
           { old_state := s.state_machine.state, new_state := t,
             metadata := md }
         fires := s.fires ++
           [{ old_state := s.state_machine.state, new_state := t,
              metadata := md }] }) := by
  simp [session_transition, transition_to, h]

/-! ## C1 -/

/-- C1: for every pair `(from, to)` with `from ≠ to` that is not in the
legal-transition table, `transition_to` returns `false`, leaves
`current_state`, `previous_state`, `state_changed_at` and the active TTS
stream id unchanged, and fires no registered callback. -/
theorem invalid_transition_rejected (sm : VoiceStateMachine)
    (t : ConversationState) (md : TransitionMetadata) (now : Nat)
    (hne : sm.state ≠ t) (hnl : t ∉ valid_transitions sm.state) :
    transition_to sm t md now = { ok := false, machine := sm, fires := [] } := by
  simp [transition_to, is_valid_transition, hne, hnl]

theorem invalid_transition_rejected_w :
    ((mk_machine ConversationState.IDLE).state ≠
       ConversationState.ASSISTANT_SPEAKING ∧
     ConversationState.ASSISTANT_SPEAKING ∉
       valid_transitions (mk_machine ConversationState.IDLE).state) ∧
    transition_to (mk_machine ConversationState.IDLE)
        ConversationState.ASSISTANT_SPEAKING TransitionMetadata.empty 5 =
      { ok := false, machine := mk_machine ConversationState.IDLE,
        fires := [] } :=
  ⟨⟨by decide, by decide⟩,
   invalid_transition_rejected (mk_machine ConversationState.IDLE)
     ConversationState.ASSISTANT_SPEAKING TransitionMetadata.empty 5
     (by decide) (by decide)⟩

/-! ## C9 -/

/-- C9: for every state `s`, a same-state `transition_to(s)` returns
`true`, and afterwards both `previous_state` and `current_state` equal
`s`. -/
theorem same_state_transition_idempotent (sm : VoiceStateMachine)
    (md : TransitionMetadata) (now : Nat) :
    (transition_to sm sm.state md now).ok = true ∧
    (transition_to sm sm.state md now).machine.previous_state = sm.state ∧
    (transition_to sm sm.state md now).machine.state = sm.state := by
  simp [transition_to, is_valid_transition]

/-! ## C4 -/

/-- C4: `handle_barge_in` returns `true` iff the state is
`ASSISTANT_SPEAKING`; in any other state it changes nothing and fires no
callback; in `ASSISTANT_SPEAKING` it equals
`transition_to(USER_SPEAKING, barge-in metadata with the active stream
id)`. -/
theorem barge_in_iff_assistant_speaking (sm : VoiceStateMachine) (now : Nat) :
    ((handle_barge_in sm now).ok = true ↔
      sm.state = ConversationState.ASSISTANT_SPEAKING) ∧
    (sm.state ≠ ConversationState.ASSISTANT_SPEAKING →
      handle_barge_in sm now = { ok := false, machine := sm, fires := [] }) ∧
    (sm.state = ConversationState.ASSISTANT_SPEAKING →
      handle_barge_in sm now =
        transition_to sm ConversationState.USER_SPEAKING
          (TransitionMetadata.barge_in_meta sm.current_tts_stream_id) now) := by
  by_cases h : sm.state = ConversationState.ASSISTANT_SPEAKING
  · have hv : is_valid_transition ConversationState.ASSISTANT_SPEAKING
        ConversationState.USER_SPEAKING = true := by decide
    refine ⟨?_, fun hn => absurd h hn, fun _ => ?_⟩
    · simp [handle_barge_in, h, transition_to, hv]
    · simp [handle_barge_in, h]
  · refine ⟨?_, fun _ => ?_, fun he => absurd he h⟩
    · simp [handle_barge_in, h]
    · simp [handle_barge_in, h]

theorem barge_in_iff_assistant_speaking_w :
    ((handle_barge_in (mk_machine ConversationState.ASSISTANT_SPEAKING) 7).ok =
        true ↔
      (mk_machine ConversationState.ASSISTANT_SPEAKING).state =
        ConversationState.ASSISTANT_SPEAKING) ∧
    handle_barge_in (mk_machine ConversationState.PROCESSING) 7 =
      { ok := false, machine := mk_machine ConversationState.PROCESSING,
        fires := [] } :=
  ⟨(barge_in_iff_assistant_speaking
      (mk_machine ConversationState.ASSISTANT_SPEAKING) 7).1,
   (barge_in_iff_assistant_speaking
      (mk_machine ConversationState.PROCESSING) 7).2.1 (by decide)⟩

/-! ## C10 -/

/-- C10: `transition_to` (successful or not) and `handle_barge_in` leave
the active TTS stream id unchanged, and `get_tts_stream_id` returns
whatever `set_tts_stream_id` last installed. -/
theorem tts_stream_id_frame (sm : VoiceStateMachine) (t : ConversationState)
    (md : TransitionMetadata) (now : Nat) (x : Option String) :
    (transition_to sm t md now).machine.current_tts_stream_id =
      sm.current_tts_stream_id ∧
    get_tts_stream_id (handle_barge_in sm now).machine =
      get_tts_stream_id sm ∧
    get_tts_stream_id (set_tts_stream_id sm x) = x := by
  refine ⟨transition_machine_stream_id sm t md now, ?_, rfl⟩
  unfold handle_barge_in get_tts_stream_id
  split
  · exact transition_machine_stream_id sm ConversationState.USER_SPEAKING
      (TransitionMetadata.barge_in_meta sm.current_tts_stream_id) now
  · rfl

/-! ## C7 -/

/-- C7: `finish_speaking` is a no-op unless the state is
`ASSISTANT_SPEAKING` (the session, including the active TTS stream id,
is fully unchanged); in `ASSISTANT_SPEAKING` it ends in `IDLE` with the
stream id cleared. -/
theorem finish_speaking_spec (s : VoiceSession) (now : Nat) :
    (s.state_machine.state ≠ ConversationState.ASSISTANT_SPEAKING →
      finish_speaking s now = s) ∧
    (s.state_machine.state = ConversationState.ASSISTANT_SPEAKING →
      (finish_speaking s now).state_machine.state = ConversationState.IDLE ∧
      (finish_speaking s now).state_machine.current_tts_stream_id = none) := by
  by_cases h : s.state_machine.state = ConversationState.ASSISTANT_SPEAKING
  · have hv : is_valid_transition ConversationState.ASSISTANT_SPEAKING
        ConversationState.IDLE = true := by decide
    refine ⟨fun hn => absurd h hn, fun _ => ?_⟩
    simp [finish_speaking, get_state, h, session_transition, transition_to,
      set_tts_stream_id, hv]
  · refine ⟨fun _ => ?_, fun he => absurd he h⟩
    simp [finish_speaking, get_state, h]

theorem finish_speaking_spec_w :
    ((mk_session ConversationState.ASSISTANT_SPEAKING).state_machine.state =
       ConversationState.ASSISTANT_SPEAKING ∧
     (mk_session ConversationState.PROCESSING).state_machine.state ≠
       ConversationState.ASSISTANT_SPEAKING) ∧
    ((finish_speaking (mk_session ConversationState.ASSISTANT_SPEAKING)
        9).state_machine.state = ConversationState.IDLE ∧
     (finish_speaking (mk_session ConversationState.ASSISTANT_SPEAKING)
        9).state_machine.current_tts_stream_id = none) ∧
    finish_speaking (mk_session ConversationState.PROCESSING) 9 =
      mk_session ConversationState.PROCESSING :=
  ⟨⟨by decide, by decide⟩,
   (finish_speaking_spec (mk_session ConversationState.ASSISTANT_SPEAKING)
      9).2 (by decide),
   (finish_speaking_spec (mk_session ConversationState.PROCESSING) 9).1
     (by decide)⟩

/-! ## C2 -/

/-- C2: a `FINAL_TRANSCRIPT` event changes the session iff the state is
exactly `USER_SPEAKING`: in any other state the session is returned
unchanged (no utterance update, no transition); in `USER_SPEAKING` the
utterance becomes exactly the event's transcript, the state becomes
`PROCESSING`, and the transition carries the transcript and confidence
as metadata. -/
theorem final_transcript_gating (ws : Nat → Bool) (s : VoiceSession)
    (e : STTEventData) (now : Nat)
    (he : e.event_type = STTEvent.FINAL_TRANSCRIPT) :
    (s.state_machine.state ≠ ConversationState.USER_SPEAKING →
      process_stt_event ws s e now = s) ∧
    (s.state_machine.state = ConversationState.USER_SPEAKING →
      (process_stt_event ws s e now).current_utterance = e.transcript ∧
      (process_stt_event ws s e now).state_machine.state =
        ConversationState.PROCESSING ∧
      (process_stt_event ws s e now).fires =
        s.fires ++
          [{ old_state := ConversationState.USER_SPEAKING,
             new_state := ConversationState.PROCESSING,
             metadata := TransitionMetadata.utterance_meta e.transcript
               e.confidence }]) := by
  by_cases h : s.state_machine.state = ConversationState.USER_SPEAKING
  · have hv : is_valid_transition ConversationState.USER_SPEAKING
        ConversationState.PROCESSING = true := by decide
    refine ⟨fun hn => absurd h hn, fun _ => ?_⟩
    simp [process_stt_event, he, get_state, h, send_to_client,
      session_transition, transition_to, hv]
  · refine ⟨fun _ => ?_, fun he2 => absurd he2 h⟩
    simp [process_stt_event, he, get_state, h]

theorem final_transcript_gating_w :
    ((mk_session ConversationState.PROCESSING).state_machine.state ≠
       ConversationState.USER_SPEAKING ∧
     sample_final_event.event_type = STTEvent.FINAL_TRANSCRIPT) ∧
    process_stt_event (fun _ => true)
        (mk_session ConversationState.PROCESSING) sample_final_event 3 =
      mk_session ConversationState.PROCESSING ∧
    ((process_stt_event (fun _ => true)
        (mk_session ConversationState.USER_SPEAKING) sample_final_event
        3).current_utterance = "explain gravity" ∧
     (process_stt_event (fun _ => true)
        (mk_session ConversationState.USER_SPEAKING) sample_final_event
        3).state_machine.state = ConversationState.PROCESSING ∧
     (process_stt_event (fun _ => true)
        (mk_session ConversationState.USER_SPEAKING) sample_final_event
        3).fires =
       (mk_session ConversationState.USER_SPEAKING).fires ++
         [{ old_state := ConversationState.USER_SPEAKING,
            new_state := ConversationState.PROCESSING,
            metadata := TransitionMetadata.utterance_meta "explain gravity"
              95 }]) :=
  ⟨⟨by decide, by decide⟩,
   (final_transcript_gating (fun _ => true)
      (mk_session ConversationState.PROCESSING) sample_final_event 3
      (by decide)).1 (by decide),
   (final_transcript_gating (fun _ => true)
      (mk_session ConversationState.USER_SPEAKING) sample_final_event 3
      (by decide)).2 (by decide)⟩

/-! ## C5 -/

/-- C5: a `SPEECH_STARTED` event in `ASSISTANT_SPEAKING` yields
`USER_SPEAKING`, increments `barge_ins` by exactly 1 and sends a
`barge_in` message; in `IDLE` it yields `USER_SPEAKING` (no barge-in
counted); in any other state it changes nothing. -/
theorem speech_started_dispatch (ws : Nat → Bool) (s : VoiceSession)
    (e : STTEventData) (now : Nat)
    (he : e.event_type = STTEvent.SPEECH_STARTED) :
    (s.state_machine.state = ConversationState.ASSISTANT_SPEAKING →
      (process_stt_event ws s e now).state_machine.state =
        ConversationState.USER_SPEAKING ∧
      (process_stt_event ws s e now).metrics.barge_ins =
        s.metrics.barge_ins + 1 ∧
      (process_stt_event ws s e now).outbox =
        s.outbox ++
          [{ body := MessageBody.barge_in_msg now,
             session_id := s.session_id,
             state := ConversationState.USER_SPEAKING }]) ∧
    (s.state_machine.state = ConversationState.IDLE →
      (process_stt_event ws s e now).state_machine.state =
        ConversationState.USER_SPEAKING ∧
      (process_stt_event ws s e now).metrics.barge_ins =
        s.metrics.barge_ins) ∧
    (s.state_machine.state ≠ ConversationState.ASSISTANT_SPEAKING →
      s.state_machine.state ≠ ConversationState.IDLE →
      process_stt_event ws s e now = s) := by
  by_cases hA : s.state_machine.state = ConversationState.ASSISTANT_SPEAKING
  · have hv : is_valid_transition ConversationState.ASSISTANT_SPEAKING
        ConversationState.USER_SPEAKING = true := by decide
    refine ⟨fun _ => ?_, fun hI => ?_, fun hn _ => absurd hA hn⟩
    · simp [process_stt_event, he, get_state, hA, session_handle_barge_in,
        handle_barge_in, transition_to, hv, apply_state_callbacks,
        send_to_client]
    · rw [hA] at hI; exact absurd hI (by decide)
  · by_cases hI : s.state_machine.state = ConversationState.IDLE
    · have hv : is_valid_transition ConversationState.IDLE
          ConversationState.USER_SPEAKING = true := by decide
      refine ⟨fun hA2 => absurd hA2 hA, fun _ => ?_, fun _ hn => absurd hI hn⟩
      simp [process_stt_event, he, get_state, hA, hI, session_transition,
        transition_to, hv, apply_state_callbacks]
    · refine ⟨fun hA2 => absurd hA2 hA, fun hI2 => absurd hI2 hI,
        fun _ _ => ?_⟩
      simp [process_stt_event, he, get_state, hA, hI]

theorem speech_started_dispatch_w :
    ((mk_session ConversationState.ASSISTANT_SPEAKING).state_machine.state =
       ConversationState.ASSISTANT_SPEAKING ∧
     sample_started_event.event_type = STTEvent.SPEECH_STARTED) ∧
    ((process_stt_event (fun _ => true)
        (mk_session ConversationState.ASSISTANT_SPEAKING)
        sample_started_event 4).state_machine.state =
      ConversationState.USER_SPEAKING ∧
     (process_stt_event (fun _ => true)
        (mk_session ConversationState.ASSISTANT_SPEAKING)
        sample_started_event 4).metrics.barge_ins =
      (mk_session ConversationState.ASSISTANT_SPEAKING).metrics.barge_ins +
        1 ∧
     (process_stt_event (fun _ => true)
        (mk_session ConversationState.ASSISTANT_SPEAKING)
        sample_started_event 4).outbox =
      (mk_session ConversationState.ASSISTANT_SPEAKING).outbox ++
        [{ body := MessageBody.barge_in_msg 4,
           session_id :=
             (mk_session ConversationState.ASSISTANT_SPEAKING).session_id,
           state := ConversationState.USER_SPEAKING }]) ∧
    process_stt_event (fun _ => true)
        (mk_session ConversationState.PROCESSING) sample_started_event 4 =
      mk_session ConversationState.PROCESSING :=
  ⟨⟨by decide, by decide⟩,
   (speech_started_dispatch (fun _ => true)
      (mk_session ConversationState.ASSISTANT_SPEAKING) sample_started_event
      4 (by decide)).1 (by decide),
   (speech_started_dispatch (fun _ => true)
      (mk_session ConversationState.PROCESSING) sample_started_event 4
      (by decide)).2.2 (by decide) (by decide)⟩

/-! ## C8 helpers -/

/-- `_send_to_client` keeps an inactive session inactive. -/
theorem send_is_active_false (ws : Nat → Bool) (s : VoiceSession)
    (b : MessageBody) (h : s.is_active = false) :
    (send_to_client ws s b).is_active = false := by
  simp [send_to_client, h]

/-- `_process_stt_event` keeps an inactive session inactive. -/
theorem process_is_active_false (ws : Nat → Bool) (s : VoiceSession)
    (e : STTEventData) (now : Nat) (h : s.is_active = false) :
    (process_stt_event ws s e now).is_active = false := by
  unfold process_stt_event
  split
  · split
    · exact send_is_active_false ws _ _ h
    · split
      · exact h
      · exact h
  · exact send_is_active_false ws s _ h
  · split
    · exact h
    · exact send_is_active_false ws
        { s with current_utterance := e.transcript }
        (MessageBody.final_transcript_msg e.transcript e.confidence) h
  · exact h
  · exact send_is_active_false ws s _ h

/-- `finish_speaking` keeps an inactive session inactive. -/
theorem finish_is_active_false (s : VoiceSession) (now : Nat)
    (h : s.is_active = false) :
    (finish_speaking s now).is_active = false := by
  unfold finish_speaking
  split
  · exact h
  · exact h

/-! ## C8 (corrected) -/

/-- C8 counterexample: after a failed send has marked the session
inactive, a further `_send_to_client` call still attempts a send — the
attempt log grows — so "no further sends are attempted" fails. -/
theorem inactive_send_attempted_cex :
    (send_to_client failing_ws (mk_session ConversationState.IDLE)
        (MessageBody.tts_error_msg "boom")).is_active = false ∧
    (send_to_client failing_ws
        (send_to_client failing_ws (mk_session ConversationState.IDLE)
          (MessageBody.tts_error_msg "boom"))
        (MessageBody.tts_error_msg "again")).outbox.length =
      (send_to_client failing_ws (mk_session ConversationState.IDLE)
          (MessageBody.tts_error_msg "boom")).outbox.length + 1 ∧
    (send_to_client failing_ws
        (send_to_client failing_ws (mk_session ConversationState.IDLE)
          (MessageBody.tts_error_msg "boom"))
        (MessageBody.tts_error_msg "again")).send_attempts =
      (send_to_client failing_ws (mk_session ConversationState.IDLE)
          (MessageBody.tts_error_msg "boom")).send_attempts + 1 := by
  decide

/-- C8 as amended: a failed send marks the session inactive, and once
inactive the session stays inactive through every subsequent send, STT
event and `finish_speaking`; however, subsequent `_send_to_client` calls
still attempt the send (the attempt is appended to the outbox). -/
theorem send_failure_marks_inactive (ws : Nat → Bool) (s : VoiceSession)
    (b : MessageBody) (e : STTEventData) (now : Nat) :
    (ws s.send_attempts = false → (send_to_client ws s b).is_active = false) ∧
    (s.is_active = false →
      (send_to_client ws s b).is_active = false ∧
      (process_stt_event ws s e now).is_active = false ∧
      (finish_speaking s now).is_active = false ∧
      (send_to_client ws s b).outbox =
        s.outbox ++
          [{ body := b, session_id := s.session_id,
             state := s.state_machine.state }]) := by
  constructor
  · intro hw
    simp [send_to_client, hw]
  · intro h
    exact ⟨send_is_active_false ws s b h,
      process_is_active_false ws s e now h,
      finish_is_active_false s now h, rfl⟩

theorem send_failure_marks_inactive_w :
    (failing_ws (mk_session ConversationState.IDLE).send_attempts = false ∧
     inactive_session.is_active = false) ∧
    (send_to_client failing_ws (mk_session ConversationState.IDLE)
        (MessageBody.tts_error_msg "x")).is_active = false ∧
    ((send_to_client failing_ws inactive_session
        (MessageBody.tts_error_msg "y")).is_active = false ∧
     (process_stt_event failing_ws inactive_session sample_final_event
        0).is_active = false ∧
     (finish_speaking inactive_session 0).is_active = false ∧
     (send_to_client failing_ws inactive_session
        (MessageBody.tts_error_msg "y")).outbox =
       inactive_session.outbox ++
         [{ body := MessageBody.tts_error_msg "y",
            session_id := inactive_session.session_id,
            state := inactive_session.state_machine.state }]) :=
  ⟨⟨rfl, rfl⟩,
   (send_failure_marks_inactive failing_ws
      (mk_session ConversationState.IDLE) (MessageBody.tts_error_msg "x")
      sample_final_event 0).1 rfl,
   (send_failure_marks_inactive failing_ws inactive_session
      (MessageBody.tts_error_msg "y") sample_final_event 0).2 rfl⟩

/-! ## TTS loop lemmas (for C3 and C6) -/

/-- After the first chunk the check passes only in `ASSISTANT_SPEAKING`. -/
theorem should_stop_of_ne (cur : ConversationState)
    (h : cur ≠ ConversationState.ASSISTANT_SPEAKING) :
    tts_should_stop false cur = true := by
  revert h; cases cur <;> decide

/-- `audio_payloads` distributes over append. -/
theorem audio_payloads_append (sid : String) (xs ys : List SentMessage) :
    audio_payloads sid (xs ++ ys) =
      audio_payloads sid xs ++ audio_payloads sid ys := by
  simp [audio_payloads]

/-- A single tagged `audio_chunk` message for the stream contributes its
payload. -/
theorem audio_payloads_single_chunk (sid : String) (a : List Nat)
    (hdr : String) (st : ConversationState) :
    audio_payloads sid
      [{ body := MessageBody.audio_chunk_msg a sid, session_id := hdr,
         state := st }] = [a] := by
  simp [audio_payloads, audio_payload_of]

/-- `session_transition` leaves the outbox alone. -/
theorem session_transition_outbox (s : VoiceSession) (t : ConversationState)
    (md : TransitionMetadata) (now : Nat) :
    ((session_transition s t md now).2).outbox = s.outbox := rfl

/-- Chunks forwarded by the loop are exactly a prefix of the provider's
chunks, appended to the outbox in provider order. -/
theorem tts_loop_payloads (env : Nat → VoiceStateMachine → VoiceStateMachine)
    (ws : Nat → Bool) (sid : String) (now : Nat) (chunks : List (List Nat)) :
    ∀ (i : Nat) (b : Bool) (s : VoiceSession),
      audio_payloads sid
          (tts_stream_loop env ws sid now chunks i b s).session.outbox =
        audio_payloads sid s.outbox ++
          chunks.take (tts_stream_loop env ws sid now chunks i b s).delivered := by
  induction chunks with
  | nil => intro i b s; simp [tts_stream_loop]
  | cons chunk rest ih =>
      intro i b s
      simp only [tts_stream_loop]
      split
      · simp
      · rw [ih]
        simp [send_to_client, session_transition_outbox, audio_payloads_append,
          audio_payloads_single_chunk, List.take_succ_cons]
        cases b
        · simp
        · simp [session_transition_outbox]

/-- The loop cancels exactly once iff it stopped early, and otherwise
forwards every chunk. -/
theorem tts_loop_cancels_dichotomy
    (env : Nat → VoiceStateMachine → VoiceStateMachine) (ws : Nat → Bool)
    (sid : String) (now : Nat) (chunks : List (List Nat)) :
    ∀ (i : Nat) (b : Bool) (s : VoiceSession),
      ((tts_stream_loop env ws sid now chunks i b s).cancels = 0 ∧
       (tts_stream_loop env ws sid now chunks i b s).delivered =
         chunks.length) ∨
      ((tts_stream_loop env ws sid now chunks i b s).cancels = 1 ∧
       (tts_stream_loop env ws sid now chunks i b s).delivered <
         chunks.length) := by
  induction chunks with
  | nil => intro i b s; left; exact ⟨rfl, rfl⟩
  | cons chunk rest ih =>
      intro i b s
      simp only [tts_stream_loop]
      split
      · right; exact ⟨rfl, Nat.succ_pos _⟩
      · rcases ih (i + 1) false _ with ⟨h0, hd⟩ | ⟨h1, hd⟩
        · left
          refine ⟨h0, ?_⟩
          simp only [List.length_cons]
          omega
        · right
          refine ⟨h1, ?_⟩
          simp only [List.length_cons]
          omega

/-- The observed-state log has one entry per forwarded chunk plus one for
the stopping check, if any. -/
theorem tts_loop_observed_length
    (env : Nat → VoiceStateMachine → VoiceStateMachine) (ws : Nat → Bool)
    (sid : String) (now : Nat) (chunks : List (List Nat)) :
    ∀ (i : Nat) (b : Bool) (s : VoiceSession),
      (tts_stream_loop env ws sid now chunks i b s).observed.length =
        (tts_stream_loop env ws sid now chunks i b s).delivered +
          (tts_stream_loop env ws sid now chunks i b s).cancels := by
  induction chunks with
  | nil => intro i b s; rfl
  | cons chunk rest ih =>
      intro i b s
      simp only [tts_stream_loop]
      split
      · rfl
      · have := ih (i + 1) false
          (send_to_client ws
            (if b then
              (session_transition
                { s with state_machine := env i s.state_machine }
                ConversationState.ASSISTANT_SPEAKING
                (TransitionMetadata.stream_meta sid) now).2
             else { s with state_machine := env i s.state_machine })
            (MessageBody.audio_chunk_msg chunk sid))
        simp only [List.length_cons]
        omega

/-- Every boundary after the first that let a chunk through observed
`ASSISTANT_SPEAKING`. -/
theorem tts_loop_pass_states
    (env : Nat → VoiceStateMachine → VoiceStateMachine) (ws : Nat → Bool)
    (sid : String) (now : Nat) (chunks : List (List Nat)) :
    ∀ (i : Nat) (b : Bool) (s : VoiceSession) (j : Nat),
      j < (tts_stream_loop env ws sid now chunks i b s).delivered →
      (b = false ∨ 1 ≤ j) →
      (tts_stream_loop env ws sid now chunks i b s).observed[j]? =
        some ConversationState.ASSISTANT_SPEAKING := by
  induction chunks with
  | nil =>
      intro i b s j hj _
      simp [tts_stream_loop] at hj
  | cons chunk rest ih =>
      intro i b s j hj hb
      simp only [tts_stream_loop] at hj ⊢
      by_cases hc : tts_should_stop b
          (get_state (env i s.state_machine)) = true
      · rw [if_pos hc] at hj ⊢
        simp at hj
      · rw [if_neg hc] at hj ⊢
        cases j with
        | zero =>
            rcases hb with hb | hb
            · subst hb
              have hAS : get_state (env i s.state_machine) =
                  ConversationState.ASSISTANT_SPEAKING := by
                by_contra hne
                exact hc (should_stop_of_ne _ hne)
              simp [hAS]
            · exact absurd hb (by decide)
        | succ j' =>
            dsimp only at hj ⊢
            simp only [List.getElem?_cons_succ]
            exact ih (i + 1) false _ j' (Nat.lt_of_succ_lt_succ hj)
              (Or.inl rfl)

/-! ## C3 -/

/-- C3: if the machine is observed out of `ASSISTANT_SPEAKING` at some
chunk boundary `j ≥ 1` of one `synthesize_and_stream` invocation (as a
barge-in forces), then the provider's `cancel_stream` is invoked exactly
once, exactly the first `j` chunks were forwarded for that stream id —
in provider order — and no chunk from boundary `j` onward is ever
forwarded. -/
theorem barge_in_stops_streaming
    (env : Nat → VoiceStateMachine → VoiceStateMachine) (ws : Nat → Bool)
    (sid : String) (chunks : List (List Nat)) (now : Nat) (s : VoiceSession)
    (j : Nat) (c : ConversationState) (hj : 1 ≤ j)
    (hobs : (synthesize_and_stream env ws sid chunks now s).observed[j]? =
      some c)
    (hc : c ≠ ConversationState.ASSISTANT_SPEAKING) :
    (synthesize_and_stream env ws sid chunks now s).cancels = 1 ∧
    (synthesize_and_stream env ws sid chunks now s).delivered = j ∧
    j < chunks.length ∧
    audio_payloads sid
        (synthesize_and_stream env ws sid chunks now s).session.outbox =
      audio_payloads sid s.outbox ++ chunks.take j := by
  simp only [synthesize_and_stream] at hobs ⊢
  have hlen : j < (tts_stream_loop env ws sid now chunks 0 true
      { s with state_machine :=
          set_tts_stream_id s.state_machine (some sid) }).observed.length := by
    by_contra hge
    push_neg at hge
    rw [List.getElem?_eq_none hge] at hobs
    cases hobs
  have hnd : ¬ j < (tts_stream_loop env ws sid now chunks 0 true
      { s with state_machine :=
          set_tts_stream_id s.state_machine (some sid) }).delivered := by
    intro hlt
    have hAS := tts_loop_pass_states env ws sid now chunks 0 true
      { s with state_machine :=
          set_tts_stream_id s.state_machine (some sid) } j hlt (Or.inr hj)
    rw [hobs] at hAS
    exact hc (Option.some.inj hAS)
  have hol := tts_loop_observed_length env ws sid now chunks 0 true
    { s with state_machine := set_tts_stream_id s.state_machine (some sid) }
  have hp := tts_loop_payloads env ws sid now chunks 0 true
    { s with state_machine := set_tts_stream_id s.state_machine (some sid) }
  rcases tts_loop_cancels_dichotomy env ws sid now chunks 0 true
      { s with state_machine :=
          set_tts_stream_id s.state_machine (some sid) } with
    ⟨h0, hd⟩ | ⟨h1, hd⟩
  · exfalso; omega
  · have hdj : (tts_stream_loop env ws sid now chunks 0 true
        { s with state_machine :=
            set_tts_stream_id s.state_machine (some sid) }).delivered = j := by
      omega
    refine ⟨h1, hdj, by omega, ?_⟩
    rw [hp, hdj]

theorem barge_in_stops_streaming_w :
    (1 ≤ 1 ∧
     (synthesize_and_stream barge_env (fun _ => true) "st1"
        [[0], [1], [2]] 0
        (mk_session ConversationState.PROCESSING)).observed[1]? =
       some ConversationState.USER_SPEAKING ∧
     ConversationState.USER_SPEAKING ≠
       ConversationState.ASSISTANT_SPEAKING) ∧
    ((synthesize_and_stream barge_env (fun _ => true) "st1"
        [[0], [1], [2]] 0
        (mk_session ConversationState.PROCESSING)).cancels = 1 ∧
     (synthesize_and_stream barge_env (fun _ => true) "st1"
        [[0], [1], [2]] 0
        (mk_session ConversationState.PROCESSING)).delivered = 1 ∧
     1 < ([[0], [1], [2]] : List (List Nat)).length ∧
     audio_payloads "st1"
         (synthesize_and_stream barge_env (fun _ => true) "st1"
           [[0], [1], [2]] 0
           (mk_session ConversationState.PROCESSING)).session.outbox =
       audio_payloads "st1"
           (mk_session ConversationState.PROCESSING).outbox ++
         ([[0], [1], [2]] : List (List Nat)).take 1) :=
  ⟨⟨by decide, by decide, by decide⟩,
   barge_in_stops_streaming barge_env (fun _ => true) "st1"
     [[0], [1], [2]] 0 (mk_session ConversationState.PROCESSING) 1
     ConversationState.USER_SPEAKING (by decide) (by decide) (by decide)⟩

/-! ## C6 (corrected) -/

/-- C6 counterexample: a one-chunk stream arriving while the machine is
`IDLE` delivers nothing — the state check runs on the first chunk too
(`cancel_stream` fires and no `audio_chunk` message is forwarded), so
"the first chunk is always delivered in every state" is false. -/
theorem first_chunk_not_always_delivered_cex :
    (synthesize_and_stream (fun _ sm => sm) (fun _ => true) "st1" [[7]] 0
        (mk_session ConversationState.IDLE)).delivered = 0 ∧
    (synthesize_and_stream (fun _ sm => sm) (fun _ => true) "st1" [[7]] 0
        (mk_session ConversationState.IDLE)).cancels = 1 ∧
    audio_payloads "st1"
        (synthesize_and_stream (fun _ sm => sm) (fun _ => true) "st1" [[7]]
          0 (mk_session ConversationState.IDLE)).session.outbox = [] := by
  decide

/-- C6 as amended: without interference, the first chunk of a non-empty
stream is delivered iff the state when it arrives is `PROCESSING` or
`ASSISTANT_SPEAKING`; the check against `ASSISTANT_SPEAKING` runs on
every chunk — the first chunk merely enjoys the extra `PROCESSING`
allowance. -/
theorem first_chunk_delivery_condition (ws : Nat → Bool) (sid : String)
    (now : Nat) (s : VoiceSession) (chunk : List Nat)
    (rest : List (List Nat)) :
    1 ≤ (synthesize_and_stream (fun _ sm => sm) ws sid (chunk :: rest) now
        s).delivered ↔
      (s.state_machine.state = ConversationState.PROCESSING ∨
       s.state_machine.state = ConversationState.ASSISTANT_SPEAKING) := by
  simp only [synthesize_and_stream, tts_stream_loop]
  cases h : s.state_machine.state <;>
    simp [tts_should_stop, get_state, set_tts_stream_id, h]
